import Mathlib

set_option autoImplicit false

namespace SpikeFilter

/-- A buffer of samples: rows are frames (time axis), columns are channels.
Sample values are rationals, standing for the numeric values the library
computes (the numerics of the external filter routines are out of scope). -/
abbrev Mat := List (List ℚ)

/-- Output element types a derived recording can carry (a representative
finite choice of numpy dtypes: two integer widths and a float type). -/
inductive Dtype where
  | int16
  | int32
  | float64
deriving DecidableEq

/-- Truncation of a rational toward zero, as the Python builtin int() applied
to a float: the floor for nonnegative arguments, the negated floor of the
negation otherwise. -/
def ratTrunc (x : ℚ) : Int := if 0 ≤ x then ⌊x⌋ else -⌊-x⌋

/-- Wrapping of an integer into the signed range of width w, as numpy astype
does when casting to a fixed-width signed integer type. -/
def wrapInt (w : Nat) (i : Int) : Int :=
  (i + 2 ^ (w - 1)) % 2 ^ w - 2 ^ (w - 1)

/-- Casting one sample value to a target dtype, as numpy astype: float targets
keep the value, integer targets truncate toward zero and wrap. -/
def castVal : Dtype → ℚ → ℚ
  | .float64, x => x
  | .int16, x => ((wrapInt 16 (ratTrunc x) : Int) : ℚ)
  | .int32, x => ((wrapInt 32 (ratTrunc x) : Int) : ℚ)

/-- Modelled from the spec: the Segment abstraction of the base recording
classes (basepreprocessor.py and the base extractor classes are not part of
the source under review; spec sections 3, 4.1 and 6 give their contract).
A segment is a lazy view over a block of frames; we realize it by its full
data matrix. -/
structure Segment where
  traces : Mat
deriving DecidableEq

/-- Total frame count of a segment. -/
def Segment.numFrames (seg : Segment) : Nat := seg.traces.length

/-- Modelled from the spec: raw read contract of a segment (spec section 4.1):
rows start_frame to end_frame exclusive, columns selected by channel_indices
in order (repeats allowed). -/
def Segment.get_traces (seg : Segment) (start_frame end_frame : Nat)
    (channel_indices : List Nat) : Mat :=
  ((seg.traces.drop start_frame).take (end_frame - start_frame)).map
    fun row => channel_indices.map fun c => row.getD c 0

/-- Modelled from the spec: get_chunk_with_margin of tools.py, which is not
part of the source under review; spec section 4.2 gives its algorithm.
Returns the padded buffer together with the actual left and right margins,
clipped at the recording boundaries. -/
def get_chunk_with_margin (seg : Segment) (start_frame end_frame : Nat)
    (channel_indices : List Nat) (margin : Nat) : Mat × Nat × Nat :=
  let left := start_frame - margin
  let actual_left_margin := start_frame - left
  let right := min seg.numFrames (end_frame + margin)
  let actual_right_margin := right - end_frame
  (seg.get_traces left right channel_indices, actual_left_margin, actual_right_margin)

/-- Filter coefficients as stored on a segment: either a cascade of second
order sections, or a numerator and denominator pair. -/
inductive FilterCoeff where
  | sos (sections : List (List ℚ))
  | ba (b a : List ℚ)
deriving DecidableEq

/-- External collaborator (spec sections 1 and 6): the signal processing
library. Coefficient design and zero-phase filtering are delegated to it and
are out of scope, so its routines are abstract fields. iirfilter returns a
second order sections array when called with output "sos" and a numerator
and denominator pair when called with output "ba"; the two shapes appear
here as two fields, selected by the caller exactly where the source passes
output=filter_mode. -/
structure SciPy where
  iirfilterSos : Nat → (ℚ ⊕ List ℚ) → String → String → List (List ℚ)
  iirfilterBa : Nat → (ℚ ⊕ List ℚ) → String → String → List ℚ × List ℚ
  iirnotch : ℚ → ℚ → List ℚ × List ℚ
  sosfiltfilt : List (List ℚ) → Mat → Mat
  filtfilt : List ℚ → List ℚ → Mat → Mat

/-- FilterRecordingSegment of filter.py: one filtered view over a parent
segment, carrying the shared coefficients, the representation tag, the margin
in samples and the output dtype. -/
structure FilterRecordingSegment where
  parent_recording_segment : Segment
  coeff : FilterCoeff
  filter_mode : String
  margin : Nat
  dtype : Dtype
deriving DecidableEq

/-- Trimming step of FilterRecordingSegment.get_traces (source lines 99 to
102): the slice [left_margin : -right_margin] when right_margin is positive,
and the slice [left_margin :] otherwise. -/
def trimMargins (filtered : Mat) (left_margin right_margin : Nat) : Mat :=
  if 0 < right_margin then
    (filtered.drop left_margin).take (filtered.length - right_margin - left_margin)
  else
    filtered.drop left_margin

/-- Final two steps of get_traces: trim the margins off the filtered buffer
and cast every value to the configured output dtype. -/
def finishTraces (dtype : Dtype) (filtered : Mat) (left_margin right_margin : Nat) : Mat :=
  (trimMargins filtered left_margin right_margin).map fun row => row.map (castVal dtype)

/-- FilterRecordingSegment.get_traces of filter.py: fetch a padded chunk with
margins, dispatch on the representation tag to apply zero-phase filtering,
trim the margins and cast. The value none models the two Python failure
modes of the dispatch: a tag that is neither "sos" nor "ba" reaches the trim
line with filtered_traces unassigned (UnboundLocalError), and a coefficient
object whose shape does not match the tag fails inside the branch; segments
built by the constructors never hit either. -/
def FilterRecordingSegment.get_traces (sp : SciPy) (seg : FilterRecordingSegment)
    (start_frame end_frame : Nat) (channel_indices : List Nat) : Option Mat :=
  let chunk := get_chunk_with_margin seg.parent_recording_segment start_frame end_frame
      channel_indices seg.margin
  let filtered? : Option Mat :=
    if seg.filter_mode = "sos" then
      match seg.coeff with
      | .sos sections => some (sp.sosfiltfilt sections chunk.1)
      | .ba _ _ => none
    else if seg.filter_mode = "ba" then
      match seg.coeff with
      | .ba b a => some (sp.filtfilt b a chunk.1)
      | .sos _ => none
    else
      none
  filtered?.map fun filtered_traces => finishTraces seg.dtype filtered_traces chunk.2.1 chunk.2.2

/-- Modelled from the spec: a parent Recording (spec section 3): ordered
segments, a sampling frequency, an element type, and a serialized description
used by to_dict (the base extractor classes are not part of the source under
review). -/
structure Recording where
  desc : String
  samplingFrequency : ℚ
  dtype : Dtype
  segments : List Segment
deriving DecidableEq

/-- Modelled from the spec: recording.to_dict(), the serialized parent
description stored in the parameter dictionary (spec section 6). -/
def Recording.to_dict (r : Recording) : String := r.desc

/-- Values a parameter dictionary can hold. -/
inductive KVal where
  | str (s : String)
  | num (q : ℚ)
  | numList (qs : List ℚ)
  | natV (n : Nat)
  | dtypeV (d : Dtype)
deriving DecidableEq

/-- A parameter dictionary (_kwargs): association list from names to values. -/
abbrev Kwargs := List (String × KVal)

/-- The band argument of the generic filter: a scalar cutoff or a list of
frequencies, as the Python parameter admits a float or a list. -/
inductive BandArg where
  | scalar (f : ℚ)
  | freqList (fs : List ℚ)
deriving DecidableEq

/-- Dictionary value stored for the band argument. -/
def bandKVal : BandArg → KVal
  | .scalar f => .num f
  | .freqList fs => .numList fs

/-- Annotations of a recording: boolean flags by name. -/
abbrev Annotations := List (String × Bool)

/-- Modelled from the spec: annotate of the base recording class sets a named
boolean flag on the recording. -/
def annotate (anns : Annotations) (key : String) (value : Bool) : Annotations :=
  (key, value) :: anns.filter fun p => p.1 != key

/-- Modelled from the spec: dtype resolution of BasePreprocessor (spec
section 3): the explicit dtype when one is given, the parent dtype when the
argument is None. -/
def resolveDtype (dtype : Option Dtype) (parent : Dtype) : Dtype := dtype.getD parent

/-- A preprocessor recording as produced by the filter constructors: the
derived recording with its annotations, resolved dtype, one filter segment
per parent segment, and the retained parameter dictionary _kwargs. -/
structure PreprocRecording where
  samplingFrequency : ℚ
  dtype : Dtype
  annotations : Annotations
  segments : List FilterRecordingSegment
  kwargs : Kwargs
deriving DecidableEq

/-- Margin conversion of filter.py (lines 70 and 165):
int(margin_ms * sf / 1000.), truncation toward zero by the Python int
builtin, clamped to Nat (margins are nonnegative for nonnegative inputs). -/
def marginSamples (margin_ms sf : ℚ) : Nat :=
  (ratTrunc (margin_ms * sf / 1000)).toNat

/-- FilterRecording.__init__ of filter.py (lines 48 to 76), as a fallible
constructor: the two asserts on btype and filter_mode, the band handling
(the length-two assert for bandpass and bandstop; a scalar there, or a list
for lowpass and highpass, is a Python TypeError), the coefficient design
call, the base initialization with dtype resolution and the is_filtered
annotation, one segment per parent segment, and the retained _kwargs. An
error result models the raised exception: nothing is constructed. -/
def FilterRecording.init (sp : SciPy) (recording : Recording) (band : BandArg)
    (btype : String) (filter_order : Nat) (ftype : String) (filter_mode : String)
    (margin_ms : ℚ) (dtype : Option Dtype) : Except String PreprocRecording :=
  if btype = "bandpass" ∨ btype = "lowpass" ∨ btype = "highpass" ∨ btype = "bandstop" then
    if filter_mode = "sos" ∨ filter_mode = "ba" then
      let sf := recording.samplingFrequency
      let wn? : Except String (ℚ ⊕ List ℚ) :=
        if btype = "bandpass" ∨ btype = "bandstop" then
          match band with
          | .freqList fs =>
              if fs.length = 2 then .ok (.inr (fs.map fun e => e / sf * 2))
              else .error "AssertionError: len(band) == 2"
          | .scalar _ => .error "TypeError: object of type float has no len"
        else
          match band with
          | .scalar f => .ok (.inl (f / sf * 2))
          | .freqList _ => .error "TypeError: float argument must be a number"
      match wn? with
      | .error e => .error e
      | .ok wn =>
        let coeff : FilterCoeff :=
          if filter_mode = "sos" then .sos (sp.iirfilterSos filter_order wn btype ftype)
          else .ba (sp.iirfilterBa filter_order wn btype ftype).1
                   (sp.iirfilterBa filter_order wn btype ftype).2
        let dtype_base := resolveDtype dtype recording.dtype
        let margin := marginSamples margin_ms sf
        .ok ⟨recording.samplingFrequency, dtype_base,
             annotate [] "is_filtered" true,
             recording.segments.map fun parent_segment =>
               ⟨parent_segment, coeff, filter_mode, margin, dtype_base⟩,
             [("recording", .str recording.to_dict), ("band", bandKVal band),
              ("btype", .str btype), ("filter_order", .natV filter_order),
              ("ftype", .str ftype), ("filter_mode", .str filter_mode),
              ("margin_ms", .num margin_ms)]⟩
    else .error "AssertionError: filter_mode"
  else .error "AssertionError: btype"

/-- Optional keyword arguments a caller may forward through **filter_kwargs
of the bandpass variant: the three documented ones (filter_order, ftype,
filter_mode); an absent field means the keyword was not passed and the
FilterRecording default applies. -/
structure FilterKwargsOpt where
  filter_order : Option Nat
  ftype : Option String
  filter_mode : Option String
deriving DecidableEq

/-- Dictionary entries dict.update(filter_kwargs) adds to _kwargs: one entry
per keyword actually passed. -/
def FilterKwargsOpt.entries (fk : FilterKwargsOpt) : Kwargs :=
  (match fk.filter_order with | some n => [("filter_order", KVal.natV n)] | none => []) ++
  (match fk.ftype with | some s => [("ftype", KVal.str s)] | none => []) ++
  (match fk.filter_mode with | some s => [("filter_mode", KVal.str s)] | none => [])

/-- BandpassFilterRecording.__init__ of filter.py (lines 130 to 134):
delegate to the generic constructor with band=[freq_min, freq_max] and the
default btype "bandpass", then overwrite _kwargs with its own dictionary
(recording, freq_min, freq_max, margin_ms) updated with filter_kwargs. -/
def BandpassFilterRecording.init (sp : SciPy) (recording : Recording)
    (freq_min freq_max margin_ms : ℚ) (dtype : Option Dtype)
    (fk : FilterKwargsOpt) : Except String PreprocRecording :=
  match FilterRecording.init sp recording (.freqList [freq_min, freq_max]) "bandpass"
      (fk.filter_order.getD 5) (fk.ftype.getD "butter") (fk.filter_mode.getD "sos")
      margin_ms dtype with
  | .error e => .error e
  | .ok base =>
      .ok ⟨base.samplingFrequency, base.dtype, base.annotations, base.segments,
           [("recording", .str recording.to_dict), ("freq_min", .num freq_min),
            ("freq_max", .num freq_max), ("margin_ms", .num margin_ms)] ++ fk.entries⟩

/-- NotchFilterRecording.__init__ of filter.py (lines 155 to 169): design a
notch at freq normalized by the Nyquist frequency fn = 0.5 * sf with quality
factor q, always store the pair under the "ba" tag, resolve dtype, annotate
is_filtered, build one segment per parent segment, and retain _kwargs
(recording, freq, q, margin_ms). -/
def NotchFilterRecording.init (sp : SciPy) (recording : Recording)
    (freq q margin_ms : ℚ) (dtype : Option Dtype) : PreprocRecording :=
  let fn := (1 / 2 : ℚ) * recording.samplingFrequency
  let coeff := sp.iirnotch (freq / fn) q
  let dtype_base := resolveDtype dtype recording.dtype
  let sf := recording.samplingFrequency
  let margin := marginSamples margin_ms sf
  ⟨recording.samplingFrequency, dtype_base,
   annotate [] "is_filtered" true,
   recording.segments.map fun parent_segment =>
     ⟨parent_segment, .ba coeff.1 coeff.2, "ba", margin, dtype_base⟩,
   [("recording", .str recording.to_dict), ("freq", .num freq),
    ("q", .num q), ("margin_ms", .num margin_ms)]⟩

/-- Result of the engine dispatcher: either the scipy backend construction
(carrying its possible construction error), or the OpenCL backend.
FilterOpenCLRecording lives in filter_opencl.py, which is not part of the
source under review; the spec (section 4.5) treats it as an interchangeable
hardware backend, so its construction is a bare tag here — the dispatch
claim only concerns which branch is taken. -/
inductive EngineResult where
  | scipyEngine (r : Except String PreprocRecording)
  | openclEngine

/-- The filter factory of filter.py (lines 174 to 179): dispatch on the
engine string. The source has no else branch, so any other selector falls
off the end of the function and Python returns None: that is the value
none here, a normal return carrying no recording, not a raised error. -/
def filterFactory (sp : SciPy) (recording : Recording) (engine : String)
    (band : BandArg) (btype : String) (filter_order : Nat) (ftype : String)
    (filter_mode : String) (margin_ms : ℚ) (dtype : Option Dtype) : Option EngineResult :=
  if engine = "scipy" then
    some (.scipyEngine (FilterRecording.init sp recording band btype filter_order
      ftype filter_mode margin_ms dtype))
  else if engine = "opencl" then
    some .openclEngine
  else
    none

/-- Lookup of a key in a parameter dictionary (first match wins, as in a
Python dictionary read). -/
def kwLookup (k : String) : Kwargs → Option KVal
  | [] => none
  | (k', v) :: rest => if k = k' then some v else kwLookup k rest

/-- Reading a rational entry of a parameter dictionary, with a default for a
missing key. -/
def getNumKw (kw : Kwargs) (k : String) (d : ℚ) : ℚ :=
  match kwLookup k kw with
  | some (.num q) => q
  | _ => d

/-- Reading a dtype entry of a parameter dictionary; a missing key yields
none, the constructor default. -/
def getDtypeKw (kw : Kwargs) (k : String) : Option Dtype :=
  match kwLookup k kw with
  | some (.dtypeV d) => some d
  | _ => none

/-- Reading an optional natural number entry of a parameter dictionary. -/
def getNatKw (kw : Kwargs) (k : String) : Option Nat :=
  match kwLookup k kw with
  | some (.natV n) => some n
  | _ => none

/-- Reading an optional string entry of a parameter dictionary. -/
def getStrKw (kw : Kwargs) (k : String) : Option String :=
  match kwLookup k kw with
  | some (.str s) => some s
  | _ => none

/-- Modelled from the spec: reconstructing a bandpass variant from its
persisted parameter dictionary against the same parent (spec section 6):
call the constructor with the stored entries, missing keys taking the
constructor defaults, exactly as Python keyword expansion of the stored
dictionary would. -/
def BandpassFilterRecording.fromKwargs (sp : SciPy) (parent : Recording)
    (kw : Kwargs) : Except String PreprocRecording :=
  BandpassFilterRecording.init sp parent
    (getNumKw kw "freq_min" 300) (getNumKw kw "freq_max" 6000)
    (getNumKw kw "margin_ms" 5) (getDtypeKw kw "dtype")
    ⟨getNatKw kw "filter_order", getStrKw kw "ftype", getStrKw kw "filter_mode"⟩

/-- A concrete scipy instance for witnesses: coefficient design returns empty
coefficient containers and both zero-phase routines return the buffer
unchanged (any instance satisfying the shape contract would do). -/
def idSciPy : SciPy :=
  ⟨fun _ _ _ _ => [], fun _ _ _ _ => ([], []), fun _ _ => ([], []),
   fun _ m => m, fun _ _ m => m⟩

/-- A concrete parent segment: eight frames, one channel. -/
def demoSegment : Segment := ⟨[[0], [1], [2], [3], [4], [5], [6], [7]]⟩

/-- A concrete parent recording around demoSegment. -/
def demoRecording : Recording := ⟨"parent", 1000, .float64, [demoSegment]⟩

/-- A concrete filter segment over demoSegment: sos mode, margin 2,
float64 output. -/
def demoFilterSeg : FilterRecordingSegment := ⟨demoSegment, .sos [], "sos", 2, .float64⟩

/-- A one-frame parent segment holding the value 40000, which int16 casting
wraps: it separates outputs produced under different dtypes. -/
def bigSegment : Segment := ⟨[[40000]]⟩

/-- Parent recording around bigSegment, with float64 element type. -/
def bigRecording : Recording := ⟨"parent", 1000, .float64, [bigSegment]⟩

/-- A parent recording with sampling frequency 1300 Hz, at which a margin of
3 ms gives 3.9 samples and truncation and rounding disagree. -/
def c3Recording : Recording := ⟨"p13", 1300, .float64, [demoSegment]⟩

/-- The recording the generic constructor builds over demoRecording with
band [300, 6000], order 5, butter, sos, margin 5 ms and explicit dtype
int16, written out. -/
def demoFilterRec : PreprocRecording :=
  ⟨1000, .int16, [("is_filtered", true)],
   [⟨demoSegment, FilterCoeff.sos [], "sos", 5, .int16⟩],
   [("recording", KVal.str "parent"), ("band", KVal.numList [300, 6000]),
    ("btype", KVal.str "bandpass"), ("filter_order", KVal.natV 5),
    ("ftype", KVal.str "butter"), ("filter_mode", KVal.str "sos"),
    ("margin_ms", KVal.num 5)]⟩

/-- The recording the bandpass constructor builds over demoRecording with
freq_min 300, freq_max 6000, margin 5 ms, explicit dtype int16 and no
forwarded keyword arguments, written out. -/
def demoBandpassRec : PreprocRecording :=
  ⟨1000, .int16, [("is_filtered", true)],
   [⟨demoSegment, FilterCoeff.sos [], "sos", 5, .int16⟩],
   [("recording", KVal.str "parent"), ("freq_min", KVal.num 300),
    ("freq_max", KVal.num 6000), ("margin_ms", KVal.num 5)]⟩

/-- Margins of the segments of a constructed recording (empty on a
construction error). -/
def marginsOf (r : Except String PreprocRecording) : List Nat :=
  match r with
  | .ok pr => pr.segments.map fun seg => seg.margin
  | .error _ => []

/-- Traces of the first segment of a constructed recording at a request
(none on a construction error or when the recording has no segment). -/
def firstSegTraces (sp : SciPy) (r : Except String PreprocRecording)
    (s e : Nat) (ch : List Nat) : Option Mat :=
  match r with
  | .ok pr =>
      match pr.segments with
      | seg :: _ => seg.get_traces sp s e ch
      | [] => none
  | .error _ => none

/-- Kwargs of a constructed recording (empty on a construction error). -/
def kwargsOf (r : Except String PreprocRecording) : Kwargs :=
  match r with
  | .ok pr => pr.kwargs
  | .error _ => []

/-- Segments of a fallibly constructed recording (none on a construction
error: an error constructs nothing). -/
def segmentsOfE (r : Except String PreprocRecording) : List FilterRecordingSegment :=
  match r with
  | .ok pr => pr.segments
  | .error _ => []

/-- A bandpass variant built over bigRecording with an explicit int16 output
dtype: the original instance of the round-trip experiment. -/
def c2Original : Except String PreprocRecording :=
  BandpassFilterRecording.init idSciPy bigRecording 300 6000 5 (some .int16)
    ⟨none, none, none⟩

/-- The instance rebuilt from the retained parameter dictionary of
c2Original, against the same parent. -/
def c2Rebuilt : Except String PreprocRecording :=
  BandpassFilterRecording.fromKwargs idSciPy bigRecording (kwargsOf c2Original)

/-- Concrete evaluation of the margin conversion at 5 ms and 1000 Hz. -/
theorem marginSamples_5_1000 : marginSamples 5 1000 = 5 := by
  norm_num [marginSamples, ratTrunc]
  decide

/-- Concrete evaluation of the margin conversion at 3 ms and 1300 Hz:
3 * 1300 / 1000 = 3.9 truncates to 3. -/
theorem marginSamples_3_1300 : marginSamples 3 1300 = 3 := by
  norm_num [marginSamples, ratTrunc]
  decide

/-- Concrete evaluation of the margin conversion at 2 ms and 1000 Hz. -/
theorem marginSamples_2_1000 : marginSamples 2 1000 = 2 := by
  norm_num [marginSamples, ratTrunc]
  decide

/-- Inversion of a successful generic construction: the validated facts, the
resolved dtype, the annotation, and the shape of every segment (shared
coefficients whose form matches the mode, the mode tag, the converted margin,
the resolved dtype). -/
theorem FilterRecording.init_ok_inv (sp : SciPy) (rec : Recording) (band : BandArg)
    (btype : String) (filter_order : Nat) (ftype filter_mode : String) (margin_ms : ℚ)
    (dt : Option Dtype) (r : PreprocRecording)
    (hr : FilterRecording.init sp rec band btype filter_order ftype filter_mode margin_ms dt
      = .ok r) :
    (btype = "bandpass" ∨ btype = "lowpass" ∨ btype = "highpass" ∨ btype = "bandstop") ∧
    (filter_mode = "sos" ∨ filter_mode = "ba") ∧
    ((btype = "bandpass" ∨ btype = "bandstop") →
      ∃ fs, band = .freqList fs ∧ fs.length = 2) ∧
    r.dtype = resolveDtype dt rec.dtype ∧
    r.annotations = annotate [] "is_filtered" true ∧
    ∃ coeff : FilterCoeff,
      ((filter_mode = "sos" ∧ ∃ s, coeff = .sos s) ∨
       (filter_mode = "ba" ∧ ∃ b a, coeff = .ba b a)) ∧
      r.segments = rec.segments.map fun ps =>
        ⟨ps, coeff, filter_mode, marginSamples margin_ms rec.samplingFrequency, r.dtype⟩ := by
  simp only [FilterRecording.init] at hr
  split at hr
  case isFalse => exact absurd hr (by simp)
  case isTrue hbtype =>
  split at hr
  case isFalse => exact absurd hr (by simp)
  case isTrue hmode =>
  split at hr
  case h_1 => exact absurd hr (by simp)
  case h_2 wn hwn =>
  have hband : (btype = "bandpass" ∨ btype = "bandstop") →
      ∃ fs, band = .freqList fs ∧ fs.length = 2 := by
    intro hbb
    rw [if_pos hbb] at hwn
    cases band with
    | scalar f => exact absurd hwn (by simp)
    | freqList fs =>
      refine ⟨fs, rfl, ?_⟩
      by_contra hlen
      exact absurd hwn (by simp [hlen])
  cases hr
  refine ⟨hbtype, hmode, hband, rfl, rfl,
    (if filter_mode = "sos" then FilterCoeff.sos (sp.iirfilterSos filter_order wn btype ftype)
     else FilterCoeff.ba (sp.iirfilterBa filter_order wn btype ftype).1
          (sp.iirfilterBa filter_order wn btype ftype).2), ?_, rfl⟩
  by_cases hsos : filter_mode = "sos"
  · exact Or.inl ⟨hsos, _, by rw [if_pos hsos]⟩
  · exact Or.inr ⟨hmode.resolve_left hsos, _, _, by rw [if_neg hsos]⟩

/-- Inversion of a successful bandpass construction: it is the generic
construction with band [freq_min, freq_max], btype bandpass and the
forwarded keyword arguments, with only the kwargs dictionary replaced. -/
theorem BandpassFilterRecording.init_ok_delegate (sp : SciPy) (rec : Recording)
    (freq_min freq_max margin_ms : ℚ) (dt : Option Dtype) (fk : FilterKwargsOpt)
    (rb : PreprocRecording)
    (hrb : BandpassFilterRecording.init sp rec freq_min freq_max margin_ms dt fk = .ok rb) :
    ∃ base : PreprocRecording,
      FilterRecording.init sp rec (.freqList [freq_min, freq_max]) "bandpass"
        (fk.filter_order.getD 5) (fk.ftype.getD "butter") (fk.filter_mode.getD "sos")
        margin_ms dt = .ok base ∧
      rb.samplingFrequency = base.samplingFrequency ∧ rb.dtype = base.dtype ∧
      rb.annotations = base.annotations ∧ rb.segments = base.segments := by
  simp only [BandpassFilterRecording.init] at hrb
  split at hrb
  case h_1 => exact absurd hrb (by simp)
  case h_2 base hbase =>
  cases hrb
  exact ⟨base, hbase, rfl, rfl, rfl, rfl⟩

/-- The segments a notch construction produces, explicitly. -/
theorem NotchFilterRecording.init_segments (sp : SciPy) (rec : Recording)
    (freq q margin_ms : ℚ) (dt : Option Dtype) :
    (NotchFilterRecording.init sp rec freq q margin_ms dt).segments =
      rec.segments.map fun ps =>
        ⟨ps, .ba (sp.iirnotch (freq / ((1 / 2) * rec.samplingFrequency)) q).1
                 (sp.iirnotch (freq / ((1 / 2) * rec.samplingFrequency)) q).2,
         "ba", marginSamples margin_ms rec.samplingFrequency, resolveDtype dt rec.dtype⟩ := rfl

/-- Rows of a trimmed buffer: the padded length minus both margins, whatever
the margins are. -/
theorem trimMargins_length (xs : Mat) (lm rm : Nat) :
    (trimMargins xs lm rm).length = xs.length - lm - rm := by
  unfold trimMargins
  split
  · simp only [List.length_take, List.length_drop]
    omega
  · simp only [List.length_drop]
    omega

/-- C1 counterexample: with the unregistered engine selector "cuda" the
factory returns none — the Python function falls off the end of the if chain
and returns None normally — instead of failing fast with a configuration
error; the claim that an unknown selector fails fast is false on the code. -/
theorem filter_unknown_engine_silent_none :
    filterFactory idSciPy demoRecording "cuda" (.freqList [300, 6000]) "bandpass" 5 "butter"
      "sos" 5 none = none := rfl

/-- C1 amended: a selector naming no registered backend is dispatched to no
backend and never falls back to a different engine: the factory returns
None (here none). It does not, however, raise a configuration error: the
miss is a silent None return. -/
theorem filter_unknown_engine_no_backend (sp : SciPy) (rec : Recording) (engine : String)
    (band : BandArg) (btype : String) (filter_order : Nat) (ftype filter_mode : String)
    (margin_ms : ℚ) (dtype : Option Dtype)
    (h1 : engine ≠ "scipy") (h2 : engine ≠ "opencl") :
    filterFactory sp rec engine band btype filter_order ftype filter_mode margin_ms dtype
      = none := by
  unfold filterFactory
  rw [if_neg h1, if_neg h2]

/-- Witness for the amended C1 theorem at the concrete selector "numba". -/
theorem filter_unknown_engine_no_backend_witness :
    filterFactory idSciPy demoRecording "numba" (.freqList [300, 6000]) "bandpass" 5 "butter"
      "sos" 5 none = none :=
  filter_unknown_engine_no_backend idSciPy demoRecording "numba" (.freqList [300, 6000])
    "bandpass" 5 "butter" "sos" 5 none (by decide) (by decide)

/-- C3 counterexample: at margin_ms = 3 and sampling frequency 1300 Hz the
constructed segment carries margin 3 = int(3.9), while rounding 3.9 to the
nearest integer gives 4: the conversion is not by rounding. -/
theorem margin_not_round_at_1300Hz :
    marginsOf (FilterRecording.init idSciPy c3Recording (.freqList [300, 6000])
      "bandpass" 5 "butter" "sos" 3 none) = [3] ∧
    (round ((3 : ℚ) * 1300 / 1000)).toNat = 4 := by
  constructor
  · simp [FilterRecording.init, c3Recording, idSciPy, marginsOf, marginSamples_3_1300,
      resolveDtype, annotate, Recording.to_dict, bandKVal]
  · norm_num [round_eq]
    decide

/-- C3 amended: the margin in samples used by every filter variant (generic,
bandpass, notch) equals int(margin_ms * sampling_frequency / 1000), which
truncates toward zero (the floor, for the nonnegative values that arise);
it is not rounded to the nearest integer. -/
theorem margin_conversion_truncates (sp : SciPy) (rec : Recording) (band : BandArg)
    (btype ftype mode : String) (filter_order : Nat) (margin_ms freq q fmin fmax : ℚ)
    (dt : Option Dtype) (fk : FilterKwargsOpt) (seg : FilterRecordingSegment)
    (hseg :
      seg ∈ segmentsOfE (FilterRecording.init sp rec band btype filter_order ftype mode
              margin_ms dt) ∨
      seg ∈ segmentsOfE (BandpassFilterRecording.init sp rec fmin fmax margin_ms dt fk) ∨
      seg ∈ (NotchFilterRecording.init sp rec freq q margin_ms dt).segments) :
    seg.margin = (ratTrunc (margin_ms * rec.samplingFrequency / 1000)).toNat := by
  have generic : ∀ (band' : BandArg) (btype' ftype' mode' : String) (n' : Nat)
      (r' : PreprocRecording),
      FilterRecording.init sp rec band' btype' n' ftype' mode' margin_ms dt = .ok r' →
      seg ∈ r'.segments →
      seg.margin = marginSamples margin_ms rec.samplingFrequency := by
    intro band' btype' ftype' mode' n' r' hr' hs
    obtain ⟨-, -, -, -, -, coeff, -, hsegs⟩ := FilterRecording.init_ok_inv _ _ _ _ _ _ _ _ _ _ hr'
    rw [hsegs] at hs
    obtain ⟨ps, -, rfl⟩ := List.mem_map.mp hs
    rfl
  rcases hseg with hseg | hseg | hseg
  · unfold segmentsOfE at hseg
    split at hseg
    case h_2 => simp at hseg
    case h_1 r' hr' => exact generic _ _ _ _ _ _ hr' hseg
  · unfold segmentsOfE at hseg
    split at hseg
    case h_2 => simp at hseg
    case h_1 rb hrb =>
    obtain ⟨base, hbase, -, -, -, hsegs⟩ :=
      BandpassFilterRecording.init_ok_delegate _ _ _ _ _ _ _ _ hrb
    rw [hsegs] at hseg
    exact generic _ _ _ _ _ _ hbase hseg
  · rw [NotchFilterRecording.init_segments] at hseg
    obtain ⟨ps, -, rfl⟩ := List.mem_map.mp hseg
    rfl

/-- Witness for the amended C3 theorem: the segment the notch construction
builds over c3Recording at 3 ms and 1300 Hz carries margin int(3.9) = 3. -/
theorem margin_conversion_truncates_witness :
    (⟨demoSegment, .ba [] [], "ba", 3, .float64⟩ : FilterRecordingSegment).margin =
      (ratTrunc ((3 : ℚ) * c3Recording.samplingFrequency / 1000)).toNat :=
  margin_conversion_truncates idSciPy c3Recording (.freqList [300, 6000]) "bandpass" "butter"
    "sos" 5 3 3000 30 300 6000 none ⟨none, none, none⟩ _
    (Or.inr (Or.inr (by
      rw [NotchFilterRecording.init_segments]
      simp [c3Recording, idSciPy, marginSamples_3_1300, resolveDtype, demoSegment])))

/-- C9: for every padded buffer of n rows and margins with
left_margin + right_margin ≤ n, the trimming step returns exactly
n - left_margin - right_margin rows; in particular when right_margin = 0 the
code slices [left_margin:] rather than [left_margin:-0], which would be an
empty buffer. -/
theorem trim_rows_count (xs : Mat) (left_margin right_margin : Nat)
    (h : left_margin + right_margin ≤ xs.length) :
    (trimMargins xs left_margin right_margin).length = xs.length - left_margin - right_margin :=
  trimMargins_length xs left_margin right_margin

/-- Witness for C9 in the right_margin = 0 case: a three-row buffer with
margins 1 and 0 trims to 3 - 1 - 0 = 2 rows, not to an empty buffer. -/
theorem trim_rows_count_witness :
    (trimMargins [[1], [2], [3]] 1 0).length = ([[1], [2], [3]] : Mat).length - 1 - 0 :=
  trim_rows_count [[1], [2], [3]] 1 0 (by decide)

/-- C4: a filter family outside the four supported ones, a representation
outside sos and ba, or (for bandpass and bandstop) a band argument that does
not supply exactly two frequencies, makes the generic constructor fail: the
result is an error, mirroring the assert raised before any segment is built,
so either a fully valid recording is produced or none at all. -/
theorem invalid_filter_params_rejected (sp : SciPy) (rec : Recording) (band : BandArg)
    (btype : String) (filter_order : Nat) (ftype filter_mode : String) (margin_ms : ℚ)
    (dt : Option Dtype)
    (hbad : ¬ (btype = "bandpass" ∨ btype = "lowpass" ∨ btype = "highpass" ∨ btype = "bandstop")
          ∨ ¬ (filter_mode = "sos" ∨ filter_mode = "ba")
          ∨ ((btype = "bandpass" ∨ btype = "bandstop") ∧
             ∀ fs, band = .freqList fs → fs.length ≠ 2)) :
    ∃ e, FilterRecording.init sp rec band btype filter_order ftype filter_mode margin_ms dt
      = .error e := by
  cases hres : FilterRecording.init sp rec band btype filter_order ftype filter_mode
      margin_ms dt with
  | error e => exact ⟨e, rfl⟩
  | ok r =>
    exfalso
    obtain ⟨hbtype, hmode, hband, -⟩ := FilterRecording.init_ok_inv _ _ _ _ _ _ _ _ _ _ hres
    rcases hbad with h | h | ⟨h1, h2⟩
    · exact h hbtype
    · exact h hmode
    · obtain ⟨fs, rfl, hlen⟩ := hband h1
      exact h2 fs rfl hlen

/-- Witness for C4 at the misspelled family "band": construction fails. -/
theorem invalid_filter_params_rejected_witness :
    ∃ e, FilterRecording.init idSciPy demoRecording (.freqList [300, 6000]) "band" 5 "butter"
      "sos" 5 none = .error e :=
  invalid_filter_params_rejected idSciPy demoRecording (.freqList [300, 6000]) "band" 5
    "butter" "sos" 5 none (Or.inl (by decide))

/-- C7: every segment the notch variant constructs carries the "ba"
representation tag and the numerator and denominator pair produced by the
notch design for the target frequency (normalized by the Nyquist frequency
0.5 * sampling_frequency) and the quality factor. -/
theorem notch_segments_use_ba (sp : SciPy) (rec : Recording) (freq q margin_ms : ℚ)
    (dt : Option Dtype) (seg : FilterRecordingSegment)
    (hseg : seg ∈ (NotchFilterRecording.init sp rec freq q margin_ms dt).segments) :
    seg.filter_mode = "ba" ∧
    seg.coeff = .ba (sp.iirnotch (freq / ((1 / 2) * rec.samplingFrequency)) q).1
                    (sp.iirnotch (freq / ((1 / 2) * rec.samplingFrequency)) q).2 := by
  rw [NotchFilterRecording.init_segments] at hseg
  obtain ⟨ps, -, rfl⟩ := List.mem_map.mp hseg
  exact ⟨rfl, rfl⟩

/-- Witness for C7: the segment of a concrete notch construction over
demoRecording carries the "ba" tag and the designed pair. -/
theorem notch_segments_use_ba_witness :
    (⟨demoSegment, .ba [] [], "ba", 5, .float64⟩ : FilterRecordingSegment).filter_mode = "ba" ∧
    (⟨demoSegment, .ba [] [], "ba", 5, .float64⟩ : FilterRecordingSegment).coeff =
      .ba (idSciPy.iirnotch ((3000 : ℚ) / ((1 / 2) * demoRecording.samplingFrequency)) 30).1
          (idSciPy.iirnotch ((3000 : ℚ) / ((1 / 2) * demoRecording.samplingFrequency)) 30).2 :=
  notch_segments_use_ba idSciPy demoRecording 3000 30 5 none _
    (by rw [NotchFilterRecording.init_segments]
        simp [demoRecording, idSciPy, marginSamples_5_1000, resolveDtype, demoSegment])

/-- C10: every segment built by the generic constructor or by the notch
constructor pairs its representation tag (always "sos" or "ba") with a
coefficient object of the matching shape, so get_traces always assigns a
filtered buffer before trimming: the fall-through branch in which
filtered_traces would be unassigned is unreachable for such segments. -/
theorem constructed_segments_always_filter (sp : SciPy) (rec : Recording) (band : BandArg)
    (btype ftype mode : String) (filter_order : Nat) (margin_ms freq q : ℚ)
    (dt : Option Dtype) (seg : FilterRecordingSegment)
    (hseg : seg ∈ segmentsOfE (FilterRecording.init sp rec band btype filter_order ftype mode
              margin_ms dt) ∨
            seg ∈ (NotchFilterRecording.init sp rec freq q margin_ms dt).segments)
    (s e : Nat) (ch : List Nat) :
    ∃ m, seg.get_traces sp s e ch = some m := by
  have hpair : (seg.filter_mode = "sos" ∧ ∃ s0, seg.coeff = .sos s0) ∨
      (seg.filter_mode = "ba" ∧ ∃ b a, seg.coeff = .ba b a) := by
    rcases hseg with hseg | hseg
    · unfold segmentsOfE at hseg
      split at hseg
      case h_2 => simp at hseg
      case h_1 r' hr' =>
      obtain ⟨-, -, -, -, -, coeff, hc, hsegs⟩ :=
        FilterRecording.init_ok_inv _ _ _ _ _ _ _ _ _ _ hr'
      rw [hsegs] at hseg
      obtain ⟨ps, -, rfl⟩ := List.mem_map.mp hseg
      rcases hc with ⟨hm, s0, hcf⟩ | ⟨hm, b, a, hcf⟩
      · exact Or.inl ⟨hm, s0, hcf⟩
      · exact Or.inr ⟨hm, b, a, hcf⟩
    · rw [NotchFilterRecording.init_segments] at hseg
      obtain ⟨ps, -, rfl⟩ := List.mem_map.mp hseg
      exact Or.inr ⟨rfl, _, _, rfl⟩
  unfold FilterRecordingSegment.get_traces
  rcases hpair with ⟨hm, s0, hcf⟩ | ⟨hm, b, a, hcf⟩
  · simp [hm, hcf]
  · simp [hm, hcf]

/-- Witness for C10: the segment of a concrete generic construction over
demoRecording produces a filtered buffer for the request [1, 3) on
channel 0. -/
theorem constructed_segments_always_filter_witness :
    ∃ m, demoFilterSeg.get_traces idSciPy 1 3 [0] = some m :=
  constructed_segments_always_filter idSciPy demoRecording (.freqList [300, 6000]) "bandpass"
    "butter" "sos" 5 2 3000 30 none demoFilterSeg
    (Or.inl (by
      simp [segmentsOfE, FilterRecording.init, demoRecording, idSciPy, marginSamples_2_1000,
        resolveDtype, annotate, Recording.to_dict, bandKVal, demoFilterSeg, demoSegment]))
    1 3 [0]

/-- C6: get_traces dispatches on the representation tag: under "sos" with a
second order sections object it applies the sos zero-phase routine to the
padded chunk along the time axis, and under "ba" it unpacks the numerator
and denominator pair and applies the direct-form zero-phase routine to the
padded chunk; either way the output is that routine's result, trimmed and
cast. -/
theorem get_traces_mode_dispatch (sp : SciPy) (seg : FilterRecordingSegment)
    (s e : Nat) (ch : List Nat) :
    (∀ sections, seg.filter_mode = "sos" → seg.coeff = .sos sections →
       seg.get_traces sp s e ch = some (finishTraces seg.dtype
         (sp.sosfiltfilt sections
           (get_chunk_with_margin seg.parent_recording_segment s e ch seg.margin).1)
         (get_chunk_with_margin seg.parent_recording_segment s e ch seg.margin).2.1
         (get_chunk_with_margin seg.parent_recording_segment s e ch seg.margin).2.2)) ∧
    (∀ b a, seg.filter_mode = "ba" → seg.coeff = .ba b a →
       seg.get_traces sp s e ch = some (finishTraces seg.dtype
         (sp.filtfilt b a
           (get_chunk_with_margin seg.parent_recording_segment s e ch seg.margin).1)
         (get_chunk_with_margin seg.parent_recording_segment s e ch seg.margin).2.1
         (get_chunk_with_margin seg.parent_recording_segment s e ch seg.margin).2.2)) := by
  constructor
  · intro sections hm hc
    unfold FilterRecordingSegment.get_traces
    simp [hm, hc]
  · intro b a hm hc
    unfold FilterRecordingSegment.get_traces
    simp [hm, hc]

/-- Witness for C6, both branches: a concrete sos segment and a concrete ba
segment over demoSegment, at the request [1, 3) on channel 0. -/
theorem get_traces_mode_dispatch_witness :
    (demoFilterSeg.get_traces idSciPy 1 3 [0] = some (finishTraces Dtype.float64
       (idSciPy.sosfiltfilt [] (get_chunk_with_margin demoSegment 1 3 [0] 2).1)
       (get_chunk_with_margin demoSegment 1 3 [0] 2).2.1
       (get_chunk_with_margin demoSegment 1 3 [0] 2).2.2)) ∧
    ((⟨demoSegment, .ba [] [], "ba", 2, .float64⟩ : FilterRecordingSegment).get_traces
       idSciPy 1 3 [0] = some (finishTraces Dtype.float64
       (idSciPy.filtfilt [] [] (get_chunk_with_margin demoSegment 1 3 [0] 2).1)
       (get_chunk_with_margin demoSegment 1 3 [0] 2).2.1
       (get_chunk_with_margin demoSegment 1 3 [0] 2).2.2)) :=
  ⟨(get_traces_mode_dispatch idSciPy demoFilterSeg 1 3 [0]).1 [] rfl rfl,
   (get_traces_mode_dispatch idSciPy ⟨demoSegment, .ba [] [], "ba", 2, .float64⟩ 1 3 [0]).2
     [] [] rfl rfl⟩

/-- Looking up the key just set by annotate on an empty annotation set. -/
theorem lookup_annotate_self (k : String) (v : Bool) :
    List.lookup k (annotate [] k v) = some v := by
  simp [annotate, List.lookup]

/-- C8: every successfully constructed variant (generic, bandpass, notch)
annotates its result with is_filtered = true; its output element type is the
explicit dtype when one is given and the parent element type when the dtype
argument is None; and every segment carries that output element type (the
dtype get_traces casts to). -/
theorem variants_set_is_filtered_and_dtype (sp : SciPy) (rec : Recording) (band : BandArg)
    (btype ftype mode : String) (filter_order : Nat) (margin_ms fmin fmax freq q : ℚ)
    (dt : Option Dtype) (fk : FilterKwargsOpt) (r rb : PreprocRecording)
    (hr : FilterRecording.init sp rec band btype filter_order ftype mode margin_ms dt = .ok r)
    (hrb : BandpassFilterRecording.init sp rec fmin fmax margin_ms dt fk = .ok rb) :
    (List.lookup "is_filtered" r.annotations = some true ∧
     (dt = none → r.dtype = rec.dtype) ∧ (∀ d0, dt = some d0 → r.dtype = d0) ∧
     ∀ seg ∈ r.segments, seg.dtype = r.dtype) ∧
    (List.lookup "is_filtered" rb.annotations = some true ∧
     (dt = none → rb.dtype = rec.dtype) ∧ (∀ d0, dt = some d0 → rb.dtype = d0) ∧
     ∀ seg ∈ rb.segments, seg.dtype = rb.dtype) ∧
    (List.lookup "is_filtered"
       (NotchFilterRecording.init sp rec freq q margin_ms dt).annotations = some true ∧
     (dt = none → (NotchFilterRecording.init sp rec freq q margin_ms dt).dtype = rec.dtype) ∧
     (∀ d0, dt = some d0 →
       (NotchFilterRecording.init sp rec freq q margin_ms dt).dtype = d0) ∧
     ∀ seg ∈ (NotchFilterRecording.init sp rec freq q margin_ms dt).segments,
       seg.dtype = (NotchFilterRecording.init sp rec freq q margin_ms dt).dtype) := by
  have generic : ∀ (band' : BandArg) (btype' ftype' mode' : String) (n' : Nat)
      (r' : PreprocRecording),
      FilterRecording.init sp rec band' btype' n' ftype' mode' margin_ms dt = .ok r' →
      List.lookup "is_filtered" r'.annotations = some true ∧
      (dt = none → r'.dtype = rec.dtype) ∧ (∀ d0, dt = some d0 → r'.dtype = d0) ∧
      ∀ seg ∈ r'.segments, seg.dtype = r'.dtype := by
    intro band' btype' ftype' mode' n' r' hr'
    obtain ⟨-, -, -, hdt, hann, coeff, -, hsegs⟩ :=
      FilterRecording.init_ok_inv _ _ _ _ _ _ _ _ _ _ hr'
    refine ⟨by rw [hann]; exact lookup_annotate_self _ _, ?_, ?_, ?_⟩
    · intro hnone
      rw [hdt, hnone]
      rfl
    · intro d0 hsome
      rw [hdt, hsome]
      rfl
    · intro seg hs
      rw [hsegs] at hs
      obtain ⟨ps, -, rfl⟩ := List.mem_map.mp hs
      rfl
  refine ⟨generic _ _ _ _ _ _ hr, ?_, ?_⟩
  · obtain ⟨base, hbase, -, hdt, hann, hsegs⟩ :=
      BandpassFilterRecording.init_ok_delegate _ _ _ _ _ _ _ _ hrb
    obtain ⟨h1, h2, h3, h4⟩ := generic _ _ _ _ _ _ hbase
    rw [hann, hdt, hsegs]
    exact ⟨h1, h2, h3, h4⟩
  · refine ⟨lookup_annotate_self _ _, ?_, ?_, ?_⟩
    · intro hnone
      rw [hnone]
      rfl
    · intro d0 hsome
      rw [hsome]
      rfl
    · intro seg hs
      rw [NotchFilterRecording.init_segments] at hs
      obtain ⟨ps, -, rfl⟩ := List.mem_map.mp hs
      rfl

/-- Witness for C8: the generic, bandpass and notch constructions over
demoRecording with explicit dtype int16 all set is_filtered and carry int16
on the recording and on every segment. -/
theorem variants_set_is_filtered_and_dtype_witness :
    (List.lookup "is_filtered" demoFilterRec.annotations = some true ∧
     (some Dtype.int16 = none → demoFilterRec.dtype = demoRecording.dtype) ∧
     (∀ d0, some Dtype.int16 = some d0 → demoFilterRec.dtype = d0) ∧
     ∀ seg ∈ demoFilterRec.segments, seg.dtype = demoFilterRec.dtype) ∧
    (List.lookup "is_filtered" demoBandpassRec.annotations = some true ∧
     (some Dtype.int16 = none → demoBandpassRec.dtype = demoRecording.dtype) ∧
     (∀ d0, some Dtype.int16 = some d0 → demoBandpassRec.dtype = d0) ∧
     ∀ seg ∈ demoBandpassRec.segments, seg.dtype = demoBandpassRec.dtype) ∧
    (List.lookup "is_filtered"
       (NotchFilterRecording.init idSciPy demoRecording 3000 30 5
         (some Dtype.int16)).annotations = some true ∧
     (some Dtype.int16 = none →
       (NotchFilterRecording.init idSciPy demoRecording 3000 30 5
         (some Dtype.int16)).dtype = demoRecording.dtype) ∧
     (∀ d0, some Dtype.int16 = some d0 →
       (NotchFilterRecording.init idSciPy demoRecording 3000 30 5
         (some Dtype.int16)).dtype = d0) ∧
     ∀ seg ∈ (NotchFilterRecording.init idSciPy demoRecording 3000 30 5
         (some Dtype.int16)).segments,
       seg.dtype = (NotchFilterRecording.init idSciPy demoRecording 3000 30 5
         (some Dtype.int16)).dtype) :=
  variants_set_is_filtered_and_dtype idSciPy demoRecording (.freqList [300, 6000]) "bandpass"
    "butter" "sos" 5 5 300 6000 3000 30 (some .int16) ⟨none, none, none⟩
    demoFilterRec demoBandpassRec
    (by simp [FilterRecording.init, demoRecording, idSciPy, marginSamples_5_1000,
      resolveDtype, annotate, Recording.to_dict, bandKVal, demoFilterRec, demoSegment])
    (by simp [BandpassFilterRecording.init, FilterRecording.init, demoRecording, idSciPy,
      marginSamples_5_1000, resolveDtype, annotate, Recording.to_dict, bandKVal,
      demoBandpassRec, demoSegment, FilterKwargsOpt.entries])

/-- Length of a raw segment read: the requested width, clipped at the
segment end. -/
theorem Segment.get_traces_length (seg : Segment) (a b : Nat) (ch : List Nat) :
    (seg.get_traces a b ch).length = min (b - a) (seg.numFrames - a) := by
  simp [Segment.get_traces, Segment.numFrames]

/-- Every row of a raw segment read has one entry per requested channel. -/
theorem Segment.get_traces_row_length (seg : Segment) (a b : Nat) (ch : List Nat) :
    ∀ row ∈ seg.get_traces a b ch, row.length = ch.length := by
  intro row hrow
  obtain ⟨r, -, rfl⟩ := List.mem_map.mp hrow
  simp

/-- Trimming keeps only rows of the original buffer. -/
theorem trimMargins_subset (xs : Mat) (lm rm : Nat) : trimMargins xs lm rm ⊆ xs := by
  unfold trimMargins
  split
  · exact (List.take_subset _ _).trans (List.drop_subset _ _)
  · exact List.drop_subset _ _

/-- Transfer of a uniform row length across a rowwise length equality. -/
theorem rows_length_transfer {n : Nat} {xs ys : Mat}
    (h : xs.map List.length = ys.map List.length)
    (hy : ∀ row ∈ ys, row.length = n) : ∀ row ∈ xs, row.length = n := by
  intro row hrow
  have hmem : row.length ∈ List.map List.length ys := by
    rw [← h]
    exact List.mem_map_of_mem _ hrow
  obtain ⟨crow, hc, hlen⟩ := List.mem_map.mp hmem
  rw [← hlen]
  exact hy crow hc

/-- The chunk extractor, with its lets spelled out. -/
theorem get_chunk_components (seg : Segment) (s e : Nat) (ch : List Nat) (margin : Nat) :
    get_chunk_with_margin seg s e ch margin =
      (seg.get_traces (s - margin) (min seg.numFrames (e + margin)) ch,
       s - (s - margin), min seg.numFrames (e + margin) - e) := rfl

/-- C5: for every valid request (start ≤ end within the parent segment) and
any zero-phase routines that preserve buffer shape, a produced output has
been trimmed by the actual margins: it has exactly end_frame - start_frame
rows, and one column per requested channel in every row. -/
theorem get_traces_output_shape (sp : SciPy) (seg : FilterRecordingSegment)
    (s e : Nat) (ch : List Nat) (m : Mat)
    (hsos : ∀ c x, (sp.sosfiltfilt c x).map List.length = x.map List.length)
    (hba : ∀ b a x, (sp.filtfilt b a x).map List.length = x.map List.length)
    (hse : s ≤ e) (he : e ≤ seg.parent_recording_segment.numFrames)
    (hm : seg.get_traces sp s e ch = some m) :
    m.length = e - s ∧ ∀ row ∈ m, row.length = ch.length := by
  simp only [FilterRecordingSegment.get_traces] at hm
  rw [Option.map_eq_some'] at hm
  obtain ⟨ft, hft, hfin⟩ := hm
  rw [get_chunk_components] at hft hfin
  have hlens : ft.map List.length =
      (seg.parent_recording_segment.get_traces (s - seg.margin)
        (min seg.parent_recording_segment.numFrames (e + seg.margin)) ch).map
        List.length := by
    by_cases hmode : seg.filter_mode = "sos"
    · rw [if_pos hmode] at hft
      cases hc : seg.coeff with
      | sos sections =>
        simp only [hc] at hft
        obtain rfl := Option.some.inj hft
        exact hsos _ _
      | ba b a =>
        simp only [hc] at hft
        exact absurd hft (by simp)
    · rw [if_neg hmode] at hft
      by_cases hmode2 : seg.filter_mode = "ba"
      · rw [if_pos hmode2] at hft
        cases hc : seg.coeff with
        | sos sections =>
          simp only [hc] at hft
          exact absurd hft (by simp)
        | ba b a =>
          simp only [hc] at hft
          obtain rfl := Option.some.inj hft
          exact hba _ _ _
      · rw [if_neg hmode2] at hft
        exact absurd hft (by simp)
  have hftlen : ft.length = (seg.parent_recording_segment.get_traces (s - seg.margin)
      (min seg.parent_recording_segment.numFrames (e + seg.margin)) ch).length := by
    have := congrArg List.length hlens
    simpa using this
  rw [Segment.get_traces_length] at hftlen
  constructor
  · have : m.length = (trimMargins ft (s - (s - seg.margin))
        (min seg.parent_recording_segment.numFrames (e + seg.margin) - e)).length := by
      rw [← hfin]
      simp [finishTraces]
    rw [this, trimMargins_length, hftlen]
    omega
  · intro row hrow
    rw [← hfin] at hrow
    simp only [finishTraces] at hrow
    obtain ⟨row', hrow', rfl⟩ := List.mem_map.mp hrow
    rw [List.length_map]
    have hsubset := trimMargins_subset ft (s - (s - seg.margin))
      (min seg.parent_recording_segment.numFrames (e + seg.margin) - e)
    exact rows_length_transfer hlens
      (Segment.get_traces_row_length _ _ _ _) row' (hsubset hrow')

/-- Witness for C5: the concrete sos segment over demoSegment, with the
identity routines, at the request [1, 3) on channel 0: two rows of one
entry. -/
theorem get_traces_output_shape_witness :
    ([[1], [2]] : Mat).length = 3 - 1 ∧
    ∀ row ∈ ([[1], [2]] : Mat), row.length = ([0] : List Nat).length :=
  get_traces_output_shape idSciPy demoFilterSeg 1 3 [0] [[1], [2]]
    (fun _ _ => rfl) (fun _ _ _ => rfl) (by decide) (by decide) (by decide)

/-- C2 (code bug): the parameter dictionaries retained by all three variants
omit the output dtype entirely (none of them stores a dtype entry), so
reconstructing from the parameter set alone against the same parent takes
the constructor default dtype None and inherits the parent element type: the
original instance built with an explicit int16 dtype casts the sample 40000
to -25536 (int16 wrap), while the rebuilt instance returns 40000 unchanged
as float64 — the round trip is not bit-identical, contradicting the stated
reconstruction contract. -/
theorem bandpass_kwargs_drop_dtype_roundtrip_differs :
    List.lookup "dtype" (kwargsOf c2Original) = none ∧
    List.lookup "dtype" (kwargsOf (FilterRecording.init idSciPy bigRecording
      (.freqList [300, 6000]) "bandpass" 5 "butter" "sos" 5 (some .int16))) = none ∧
    List.lookup "dtype" (NotchFilterRecording.init idSciPy bigRecording 3000 30 5
      (some .int16)).kwargs = none ∧
    firstSegTraces idSciPy c2Original 0 1 [0] = some [[-25536]] ∧
    firstSegTraces idSciPy c2Rebuilt 0 1 [0] = some [[40000]] := by
  have hkw : kwargsOf c2Original =
      [("recording", KVal.str "parent"), ("freq_min", KVal.num 300),
       ("freq_max", KVal.num 6000), ("margin_ms", KVal.num 5)] := by
    simp [c2Original, BandpassFilterRecording.init, FilterRecording.init, bigRecording,
      idSciPy, kwargsOf, marginSamples_5_1000, resolveDtype, annotate, Recording.to_dict,
      bandKVal, FilterKwargsOpt.entries]
  refine ⟨?_, ?_, ?_, ?_, ?_⟩
  · rw [hkw]
    simp [List.lookup]
  · simp [FilterRecording.init, bigRecording, idSciPy, kwargsOf, marginSamples_5_1000,
      resolveDtype, annotate, Recording.to_dict, bandKVal, List.lookup]
  · simp [NotchFilterRecording.init, bigRecording, idSciPy, marginSamples_5_1000,
      resolveDtype, annotate, Recording.to_dict, List.lookup]
  · norm_num [c2Original, BandpassFilterRecording.init, FilterRecording.init, bigRecording,
      bigSegment, idSciPy, firstSegTraces, marginSamples_5_1000, resolveDtype, annotate,
      Recording.to_dict, bandKVal, FilterRecordingSegment.get_traces, get_chunk_with_margin,
      Segment.get_traces, Segment.numFrames, finishTraces, trimMargins, castVal, wrapInt,
      ratTrunc]
  · have hargs : BandpassFilterRecording.fromKwargs idSciPy bigRecording
        [("recording", KVal.str "parent"), ("freq_min", KVal.num 300),
         ("freq_max", KVal.num 6000), ("margin_ms", KVal.num 5)] =
        BandpassFilterRecording.init idSciPy bigRecording 300 6000 5 none
          ⟨none, none, none⟩ := by
      simp [BandpassFilterRecording.fromKwargs, getNumKw, getDtypeKw, getNatKw, getStrKw,
        kwLookup]
    rw [c2Rebuilt, hkw, hargs]
    norm_num [BandpassFilterRecording.init, FilterRecording.init, bigRecording,
      bigSegment, idSciPy, firstSegTraces, marginSamples_5_1000, resolveDtype, annotate,
      Recording.to_dict, bandKVal, FilterRecordingSegment.get_traces, get_chunk_with_margin,
      Segment.get_traces, Segment.numFrames, finishTraces, trimMargins, castVal, wrapInt,
      ratTrunc]

end SpikeFilter
